import Mathlib

/-
Shallow embedding of the VuGru Music MVP backend (FastAPI, Python).

Time is modelled in whole seconds (`Nat`); the 15-minute cache expiry window
is 900 seconds.  Audio payloads are byte lists (`List Nat`).  Python dicts
(`active_requests`, `track_cache`) are association lists that preserve
insertion order; `dictSet` mirrors `d[k] = v` (replace in place, else append).
Fallible handlers return `Except HTTPError _`, mirroring FastAPI's
`HTTPException(status_code, detail)`.
-/

/-- An HTTP error as raised by FastAPI's HTTPException: status code plus detail string. -/
structure HTTPError where
  status_code : Nat
  detail : String
deriving DecidableEq

/-- A binary streaming response: the audio bytes and the suggested filename
(the `Content-Disposition` attachment name).  Diagnostic headers such as
`X-Prompt` are presentation only and are not modelled. -/
structure StreamResp where
  audio_data : List Nat
  filename : String
deriving DecidableEq

/-- One entry of `track_cache` (main.py lines 260-266). -/
structure CacheEntry where
  audio_data : List Nat
  prompt : String
  duration : Int
  created_at : Nat
  filename : String
deriving DecidableEq

/-- The in-memory track cache: insertion-ordered map from track id to entry. -/
abbrev Cache := List (String × CacheEntry)

/-- Python dict assignment `d[k] = v`: replaces the entry in place if the key is
present (dicts keep insertion order), otherwise appends a new entry. -/
def dictSet {β : Type} (l : List (String × β)) (k : String) (v : β) : List (String × β) :=
  match l with
  | [] => [(k, v)]
  | (k₁, v₁) :: t => if k₁ = k then (k, v) :: t else (k₁, v₁) :: dictSet t k v

/-- Expiry test of `clean_cache` (main.py line 68):
`current_time - data["created_at"] > timedelta(minutes=15)`, in seconds. -/
def cacheExpired (now : Nat) (e : CacheEntry) : Bool :=
  900 < now - e.created_at

/-- `clean_cache` (main.py lines 62-72): collects the keys of expired entries
and deletes them; since dict keys are unique this equals an order-preserving
filter keeping the non-expired entries. -/
def clean_cache (now : Nat) (cache : Cache) : Cache :=
  cache.filter (fun kv => ! cacheExpired now kv.2)

/-- Python `str.strip()`: drops leading and trailing whitespace. -/
def pyStrip (s : String) : String :=
  ⟨((s.data.dropWhile Char.isWhitespace).reverse.dropWhile Char.isWhitespace).reverse⟩

/-- `enhance_music_prompt` (main.py lines 74-80). -/
def enhance_music_prompt (user_prompt : String) (duration : Int) : String :=
  pyStrip (user_prompt ++ ". Duration: " ++ toString duration ++
    " seconds. Make it instrumental only, no vocals. Ensure clean loop points for seamless playback.")

/-- Matches a literal character sequence at the head of the input, returning the
remainder on success. -/
def matchLit : List Char → List Char → Option (List Char)
  | [], cs => some cs
  | _ :: _, [] => none
  | p :: ps, c :: cs => if c = p then matchLit ps cs else none

/-- Numeric value of a digit string (the regex capture `\d+` converted by `int(...)`). -/
def digitsToNat (ds : List Char) : Nat :=
  ds.foldl (fun n c => n * 10 + (c.toNat - 48)) 0

/-- Attempts the regex
`You have (\d+) credits remaining, while (\d+) credits are required`
anchored at the current position.  Maximal-munch digit scanning is equivalent to
the regex's greedy `\d+` here because each following literal starts with a
non-digit. -/
def quotaAt (cs : List Char) : Option (Nat × Nat) :=
  match matchLit "You have ".toList cs with
  | none => none
  | some rest =>
    let ds := rest.takeWhile Char.isDigit
    if ds.isEmpty then none else
    match matchLit " credits remaining, while ".toList (rest.dropWhile Char.isDigit) with
    | none => none
    | some rest₂ =>
      let qs := rest₂.takeWhile Char.isDigit
      if qs.isEmpty then none else
      match matchLit " credits are required".toList (rest₂.dropWhile Char.isDigit) with
      | none => none
      | some _ => some (digitsToNat ds, digitsToNat qs)

/-- `re.search` for the quota pattern (main.py line 192): tries the pattern at
every position of the message. -/
def searchQuota : List Char → Option (Nat × Nat)
  | [] => none
  | c :: t =>
    match quotaAt (c :: t) with
    | some r => some r
    | none => searchQuota t

/-- `credits_per_second = 22.5` (main.py line 198). -/
def credits_per_second : ℚ := 22.5

/-- `max_duration = int(remaining / credits_per_second)` (main.py line 199):
`remaining` is a nonnegative regex capture, so Python's truncating `int(...)`
agrees with the natural-number floor of the exact quotient. -/
def max_duration (remaining : Nat) : Nat :=
  ⌊(remaining : ℚ) / credits_per_second⌋₊

/-- Detail string of the 402 quota error (main.py line 203). -/
def quota_detail (remaining required : Nat) (duration : Int) : String :=
  "Not enough credits. You have " ++ toString remaining ++ " credits but need " ++
    toString required ++ " for " ++ toString duration ++
    " seconds. Try a shorter duration (max ~" ++ toString (max_duration remaining) ++ " seconds)."

/-- Admission denial, 429 (main.py lines 122-125). -/
def inProgressError : HTTPError :=
  ⟨429, "A music generation request is already in progress. Please wait for it to complete."⟩

/-- Bad duration, 400 (main.py lines 129-132). -/
def durationError : HTTPError :=
  ⟨400, "Duration must be between 10 and 60 seconds"⟩

/-- Missing ELEVENLABS_API_KEY, 500 (main.py lines 138-141). -/
def notConfiguredError : HTTPError :=
  ⟨500, "Music generation service is not configured properly"⟩

/-- Provider throttle, 429 (main.py lines 179-182). -/
def providerRateLimitError : HTTPError :=
  ⟨429, "Rate limit reached. Please try again in a minute."⟩

/-- Quota body without parseable credit counts, 402 (main.py lines 206-209). -/
def genericQuotaError : HTTPError :=
  ⟨402, "Not enough credits for this request. Try a shorter duration (20 seconds or less)."⟩

/-- Provider 401 without quota marker (main.py lines 212-215). -/
def authFailedError : HTTPError :=
  ⟨401, "Authentication failed. Please check your API key."⟩

/-- Any other non-200 provider status, 500 (main.py lines 218-221). -/
def upstreamError : HTTPError :=
  ⟨500, "Failed to generate music. Please try again."⟩

/-- httpx.TimeoutException, 504 (main.py lines 285-288). -/
def timeoutError : HTTPError :=
  ⟨504, "Music generation timed out. Please try again with a shorter duration."⟩

/-- httpx.RequestError, 500 (main.py lines 291-294). -/
def connectError : HTTPError :=
  ⟨500, "Failed to connect to music generation service."⟩

/-- Catch-all exception handler, 500 (main.py lines 300-303). -/
def unexpectedError : HTTPError :=
  ⟨500, "An unexpected error occurred. Please try again."⟩

/-- Cache miss, 404 (main.py lines 314-317). -/
def trackNotFoundError : HTTPError :=
  ⟨404, "Track not found or has expired"⟩

/-- Outcome of the outbound `client.post("https://api.elevenlabs.io/v1/music", ...)`
call: a response (its status code; whether the substring `quota_exceeded` occurs
in the string form of the JSON body; the body's `detail.message` field; the raw
content bytes), an httpx timeout, an httpx request error, or any other exception
raised while handling the response. -/
inductive ProviderOutcome where
  | resp (status_code : Nat) (quota_in_body : Bool) (message : String) (content : List Nat)
  | timeout
  | requestError
  | unexpected
deriving DecidableEq

/-- Request body of POST /api/generate_music. -/
structure MusicGenerationRequest where
  prompt : String
  duration : Int
  vocals_mode : String := "instrumental"
deriving DecidableEq

/-- The process-local mutable state touched by generate_music: the per-client
in-flight flags and the track cache (main.py lines 47-48). -/
structure GenState where
  active_requests : List (String × Bool)
  track_cache : Cache
deriving DecidableEq

deriving instance DecidableEq for Except

/-- Result of one generate_music request: the state it leaves behind, the HTTP
outcome, and whether the outbound generation call was issued. -/
structure GenResult where
  state : GenState
  outcome : Except HTTPError StreamResp
  provider_called : Bool
deriving DecidableEq

/-- The admission check (main.py line 121):
`client_ip in active_requests and active_requests[client_ip]`. -/
def admission_denied (ar : List (String × Bool)) (ip : String) : Bool :=
  (List.lookup ip ar).getD false

/-- The cache insertion performed on success (main.py lines 258-266):
`clean_cache()` followed by `track_cache[track_id] = {...}`. -/
def cache_store (now : Nat) (cache : Cache) (track_id : String) (e : CacheEntry) : Cache :=
  dictSet (clean_cache now cache) track_id e

/-- The body of the generation attempt (main.py lines 146-303): everything inside
the `try` entered after the in-flight flag is set.  `track_id` stands for the
md5-derived id of line 227.  `ProviderOutcome.unexpected` covers any exception
raised while handling the response (e.g. a non-JSON 401 body), routed to the
catch-all 500. -/
def generation_attempt (now : Nat) (req : MusicGenerationRequest)
    (provider : ProviderOutcome) (track_id : String) (cache : Cache) :
    Cache × Except HTTPError StreamResp :=
  let prompt := enhance_music_prompt req.prompt req.duration
  match provider with
  | .timeout => (cache, .error timeoutError)
  | .requestError => (cache, .error connectError)
  | .unexpected => (cache, .error unexpectedError)
  | .resp status quota msg content =>
    if status = 429 then (cache, .error providerRateLimitError)
    else if status = 401 then
      if quota then
        match searchQuota msg.toList with
        | some (remaining, required) =>
          (cache, .error ⟨402, quota_detail remaining required req.duration⟩)
        | none => (cache, .error genericQuotaError)
      else (cache, .error authFailedError)
    else if status ≠ 200 then (cache, .error upstreamError)
    else
      let filename := "vugru_track_" ++ track_id ++ ".mp3"
      let e : CacheEntry := ⟨content, prompt, req.duration, now, filename⟩
      (cache_store now cache track_id e, .ok ⟨content, filename⟩)

/-- `generate_music` (main.py lines 111-306), for a request that passed the
required-auth dependency.  The Supabase storage/persistence block
(lines 230-256) swallows its own failures and does not affect the admission
flags, the cache, or the outcome modelled here, so it contributes nothing to
this state.  The `finally` of line 304 resets the in-flight flag on every path
out of the `try`. -/
def generate_music (now : Nat) (api_key : Option String) (client_ip : String)
    (req : MusicGenerationRequest) (provider : ProviderOutcome) (track_id : String)
    (st : GenState) : GenResult :=
  if admission_denied st.active_requests client_ip then
    ⟨st, .error inProgressError, false⟩
  else if ¬ (10 ≤ req.duration ∧ req.duration ≤ 60) then
    ⟨st, .error durationError, false⟩
  else
    match api_key with
    | none => ⟨st, .error notConfiguredError, false⟩
    | some _ =>
      let ar := dictSet st.active_requests client_ip true
      let r := generation_attempt now req provider track_id st.track_cache
      ⟨⟨dictSet ar client_ip false, r.1⟩, r.2, true⟩

/-- GET /api/track/{track_id} (main.py lines 308-327): purge, then look up. -/
def get_cached_track (now : Nat) (cache : Cache) (track_id : String) :
    Cache × Except HTTPError StreamResp :=
  let c := clean_cache now cache
  match List.lookup track_id c with
  | none => (c, .error trackNotFoundError)
  | some e => (c, .ok ⟨e.audio_data, e.filename⟩)

/-- One item of the /api/recent_tracks listing (main.py lines 336-342).
The `created_at` isoformat string is modelled by the timestamp itself. -/
structure RecentItem where
  id : String
  filename : String
  duration : Int
  prompt : String
  created_at : Nat
deriving DecidableEq

/-- Builds one listing item from a cache entry (main.py lines 336-342),
including the 100-character prompt truncation. -/
def recent_item (kv : String × CacheEntry) : RecentItem :=
  ⟨kv.1, kv.2.filename, kv.2.duration,
    if kv.2.prompt.length > 100 then kv.2.prompt.take 100 ++ "..." else kv.2.prompt,
    kv.2.created_at⟩

/-- GET /api/recent_tracks (main.py lines 329-344): purge, stable-sort the
entries by creation time descending (`sorted(..., reverse=True)` is stable, as
is `mergeSort` with `le a b := b.key ≤ a.key`), take the first 5. -/
def get_recent_tracks (now : Nat) (cache : Cache) : Cache × List RecentItem :=
  let c := clean_cache now cache
  let sortedEntries := c.mergeSort (fun a b => decide (b.2.created_at ≤ a.2.created_at))
  (c, (sortedEntries.take 5).map recent_item)

/-- The user identity resolved by the identity gateway (auth/models.py, UserResponse). -/
structure UserResponse where
  id : String
  email : String
  full_name : Option String
  created_at : String
  email_confirmed_at : Option String
deriving DecidableEq

/-- Python exception classes relevant to attribute access and calls. -/
inductive PyError where
  | attributeError
  | typeError
deriving DecidableEq

/-- The attribute names defined on `AuthService` instances
(auth/auth_service.py, class body lines 10-172 plus `__init__`). -/
def authServiceAttrs : List String :=
  ["__init__", "supabase_client", "_get_supabase", "sign_up", "sign_in", "sign_out", "get_user"]

/-- Python attribute lookup plus call `auth_service.<name>(token)` for a
token-resolving method.  The only token-to-user resolver the class defines is
`get_user` (auth_service.py lines 151-172); it catches every exception of its
own body and returns `None` or a user, modelled by the abstract `resolve`.
A name not defined on the class raises `AttributeError`; any other defined
attribute would fail with a `TypeError` if called with a lone token argument. -/
def auth_service_call (resolve : String → Option UserResponse) (name : String)
    (token : String) : Except PyError (Option UserResponse) :=
  if name = "get_user" then .ok (resolve token)
  else if name ∈ authServiceAttrs then .error .typeError
  else .error .attributeError

/-- `get_current_user_optional` (auth/middleware.py lines 14-26): the middleware
invokes `auth_service.get_current_user(credentials.credentials)`; any exception
is swallowed and `None` is returned. -/
def get_current_user_optional (resolve : String → Option UserResponse)
    (credentials : Option String) : Option UserResponse :=
  match credentials with
  | none => none
  | some tok =>
    match auth_service_call resolve "get_current_user" tok with
    | .ok u => u
    | .error _ => none

/-- `get_current_user_required` (auth/middleware.py lines 28-56): 401 when no
credentials; otherwise invokes `auth_service.get_current_user(...)`; an inner
HTTPException is re-raised, any other exception becomes a 401. -/
def get_current_user_required (resolve : String → Option UserResponse)
    (credentials : Option String) : Except HTTPError UserResponse :=
  match credentials with
  | none => .error ⟨401, "Authentication required"⟩
  | some tok =>
    match auth_service_call resolve "get_current_user" tok with
    | .ok (some u) => .ok u
    | .ok none => .error ⟨401, "Invalid authentication credentials"⟩
    | .error _ => .error ⟨401, "Authentication failed"⟩

/-- Input record of `save_track` (auth/models.py, GeneratedTrack). -/
structure GeneratedTrack where
  id : Option String
  user_id : String
  title : String
  prompt : String
  duration : Int
  file_url : String
  file_name : String
  storage_path : String
deriving DecidableEq

/-- Output record of `save_track` (auth/models.py, TrackResponse). -/
structure TrackResponse where
  id : String
  title : String
  prompt : String
  duration : Int
  file_url : String
  file_name : String
  created_at : String
deriving DecidableEq

/-- A row of `response.data` returned by the Supabase insert. -/
structure TrackRow where
  id : String
  title : String
  prompt : String
  duration : Int
  file_url : String
  file_name : String
  created_at : String
deriving DecidableEq

/-- Outcome of `client.table("user_tracks").insert(track_dict).execute()`
(storage/track_service.py line 62): either it returns with `response.data`,
or it raises (table missing, network failure, ...). -/
inductive InsertOutcome where
  | rows (data : List TrackRow)
  | raises
deriving DecidableEq

/-- Python truthiness test `not track_data.id` on an `Optional[str]`:
true for `None` and for the empty string. -/
def strFalsy (s : Option String) : Bool :=
  match s with
  | none => true
  | some v => v = ""

/-- Python `a or b` for an `Optional[str]` and a string default. -/
def pyOr (s : Option String) (dflt : String) : String :=
  match s with
  | none => dflt
  | some v => if v = "" then dflt else v

/-- `TrackService.save_track` (storage/track_service.py lines 38-92).
`configured` is whether the Supabase client is available (`_get_client`
raises a 503 HTTPException otherwise); `fresh₁`/`fresh₂` stand for the values
of the two `str(uuid.uuid4())` call sites (lines 46 and 85); `now_iso` for
`datetime.now().isoformat()`.  Line 45-46 assigns a fresh id into the record
before the insert; if the insert raises, the locally-synthesized response is
returned instead of propagating the failure; if the insert returns no data,
a 500 HTTPException is raised and re-raised past the handler. -/
def save_track (configured : Bool) (track_data : GeneratedTrack)
    (outcome : InsertOutcome) (fresh₁ fresh₂ : String) (now_iso : String) :
    Except HTTPError TrackResponse :=
  if ¬ configured then
    .error ⟨503, "Track service is not configured. Please check your environment variables."⟩
  else
    let assigned : Option String :=
      if strFalsy track_data.id then some fresh₁ else track_data.id
    match outcome with
    | .rows [] => .error ⟨500, "Failed to save track"⟩
    | .rows (row :: _) =>
      .ok ⟨row.id, row.title, row.prompt, row.duration, row.file_url, row.file_name, row.created_at⟩
    | .raises =>
      .ok ⟨pyOr assigned fresh₂, track_data.title, track_data.prompt, track_data.duration,
        track_data.file_url, track_data.file_name, now_iso⟩

/-
Helper lemmas about the association-list dictionary and the cache.
-/

/-- Looking up a key immediately after `d[k] = v` yields `v`. -/
theorem lookup_dictSet_self {β : Type} (l : List (String × β)) (k : String) (v : β) :
    List.lookup k (dictSet l k v) = some v := by
  induction l with
  | nil => simp [dictSet, List.lookup]
  | cons q t ih =>
    obtain ⟨k₁, v₁⟩ := q
    by_cases h : k₁ = k
    · subst h; simp [dictSet, List.lookup]
    · have hne : (k == k₁) = false := beq_eq_false_iff_ne.mpr (fun hh => h hh.symm)
      simp [dictSet, h, List.lookup, hne, ih]

/-- Every pair of `dictSet l k v` is the new pair or was already in `l`. -/
theorem mem_dictSet {β : Type} {kv : String × β} {l : List (String × β)} {k : String} {v : β}
    (h : kv ∈ dictSet l k v) : kv = (k, v) ∨ kv ∈ l := by
  induction l with
  | nil => simpa [dictSet] using h
  | cons q t ih =>
    obtain ⟨k₁, v₁⟩ := q
    by_cases hk : k₁ = k
    · subst hk
      rcases List.mem_cons.mp (by simpa [dictSet] using h) with h1 | h1
      · exact Or.inl h1
      · exact Or.inr (List.mem_cons_of_mem _ h1)
    · rcases List.mem_cons.mp (by simpa [dictSet, hk] using h) with h1 | h1
      · exact Or.inr (h1 ▸ List.mem_cons_self _ _)
      · rcases ih h1 with h2 | h2
        · exact Or.inl h2
        · exact Or.inr (List.mem_cons_of_mem _ h2)

/-- Lookup misses when no pair carries the key. -/
theorem lookup_eq_none_of_forall_ne {β : Type} {k : String} {l : List (String × β)}
    (h : ∀ q ∈ l, q.1 ≠ k) : List.lookup k l = none := by
  induction l with
  | nil => rfl
  | cons q t ih =>
    obtain ⟨k₁, v₁⟩ := q
    have h1 : k₁ ≠ k := h (k₁, v₁) (List.mem_cons_self _ _)
    have hne : (k == k₁) = false := beq_eq_false_iff_ne.mpr (fun hh => h1 hh.symm)
    simp only [List.lookup, hne]
    exact ih (fun q hq => h q (List.mem_cons_of_mem _ hq))

/-- Looking up `k` in a filtered dictionary right after `d[k] = v`: the pair is
found exactly when it passes the filter (keys of `l` distinct). -/
theorem lookup_filter_dictSet {β : Type} (l : List (String × β)) (k : String) (v : β)
    (p : String × β → Bool) (hnd : (l.map Prod.fst).Nodup) :
    List.lookup k (List.filter p (dictSet l k v)) = if p (k, v) then some v else none := by
  induction l with
  | nil =>
    by_cases hp : p (k, v) <;> simp [dictSet, hp, List.filter, List.lookup]
  | cons q t ih =>
    obtain ⟨k₁, v₁⟩ := q
    have hnd₂ : (t.map Prod.fst).Nodup := (List.nodup_cons.mp (by simpa using hnd)).2
    by_cases hk : k₁ = k
    · subst hk
      have hknot : k₁ ∉ t.map Prod.fst := (List.nodup_cons.mp (by simpa using hnd)).1
      by_cases hp : p (k₁, v)
      · simp [dictSet, List.filter, hp, List.lookup]
      · have hnone : List.lookup k₁ (List.filter p t) = none := by
          apply lookup_eq_none_of_forall_ne
          intro q hq hEq
          exact hknot (hEq ▸ List.mem_map_of_mem Prod.fst (List.mem_filter.mp hq).1)
        simp [dictSet, List.filter, hp, hnone]
    · have hne : (k == k₁) = false := beq_eq_false_iff_ne.mpr (fun hh => hk hh.symm)
      by_cases hp : p (k₁, v₁)
      · simp [dictSet, hk, List.filter, hp, List.lookup, hne, ih hnd₂]
      · simp [dictSet, hk, List.filter, hp, ih hnd₂]

/-- Entries surviving `clean_cache` are at most 15 minutes old. -/
theorem live_of_mem_clean {now : Nat} {cache : Cache} {kv : String × CacheEntry}
    (h : kv ∈ clean_cache now cache) : now - kv.2.created_at ≤ 900 := by
  have h2 := (List.mem_filter.mp h).2
  simp only [cacheExpired, Bool.not_eq_true', decide_eq_false_iff_not, Nat.not_lt] at h2
  exact h2

/-- `clean_cache` preserves distinctness of the cache keys. -/
theorem keys_clean_nodup {cache : Cache} (h : (cache.map Prod.fst).Nodup) (now : Nat) :
    ((clean_cache now cache).map Prod.fst).Nodup :=
  h.sublist (List.Sublist.map _ (List.filter_sublist _))

/-- The suggested maximum duration is the exact integer floor of
`remaining / 22.5`, i.e. `remaining * 2 / 45` in natural division. -/
theorem max_duration_eq (remaining : Nat) : max_duration remaining = remaining * 2 / 45 := by
  unfold max_duration credits_per_second
  have h225 : (22.5 : ℚ) = 45 / 2 := by norm_num
  rw [h225]
  have hdiv : (remaining : ℚ) / (45 / 2) = ((remaining * 2 : ℕ) : ℚ) / ((45 : ℕ) : ℚ) := by
    push_cast; ring
  rw [hdiv, Nat.floor_div_nat, Nat.floor_natCast]

/-
Projection lemmas and claim theorems.
-/

theorem get_cached_track_fst (now : Nat) (cache : Cache) (track_id : String) :
    (get_cached_track now cache track_id).1 = clean_cache now cache := by
  unfold get_cached_track
  cases h : List.lookup track_id (clean_cache now cache) <;> simp [h]

theorem generation_attempt_ne_inProgress (now : Nat) (req : MusicGenerationRequest)
    (provider : ProviderOutcome) (track_id : String) (cache : Cache) :
    (generation_attempt now req provider track_id cache).2 ≠ .error inProgressError := by
  cases provider with
  | timeout => simp [generation_attempt, timeoutError, inProgressError]
  | requestError => simp [generation_attempt, connectError, inProgressError]
  | unexpected => simp [generation_attempt, unexpectedError, inProgressError]
  | resp s q msg content =>
    simp only [generation_attempt]
    rcases hsq : searchQuota msg.toList with _ | ⟨rm, rq⟩ <;>
      split_ifs <;>
        simp [hsq, providerRateLimitError, authFailedError, upstreamError, genericQuotaError,
          inProgressError]

/-- Claim C1: single-flight admission per client key.  While the in-flight flag
for a client key is true, a second generate_music request from that key is
rejected with the 429 in-progress error, the state is unchanged (so the flag is
not set) and no outbound generation call is issued; when the flag is not true,
the request is never rejected with the admission error, and after the request
finishes the admission check passes again for that key. -/
theorem single_flight_admission (now : Nat) (api_key : Option String) (C : String)
    (req : MusicGenerationRequest) (provider : ProviderOutcome) (track_id : String)
    (st : GenState) :
    (admission_denied st.active_requests C = true →
      generate_music now api_key C req provider track_id st
        = ⟨st, .error inProgressError, false⟩)
    ∧ (admission_denied st.active_requests C = false →
        (generate_music now api_key C req provider track_id st).outcome
          ≠ .error inProgressError
        ∧ admission_denied
            (generate_music now api_key C req provider track_id st).state.active_requests C
          = false) := by
  constructor
  · intro h
    simp [generate_music, h]
  · intro h
    unfold generate_music
    rw [if_neg (by simp [h])]
    by_cases hdur : 10 ≤ req.duration ∧ req.duration ≤ 60
    · rw [if_neg (by simpa using hdur)]
      cases api_key with
      | none => exact ⟨by simp [notConfiguredError, inProgressError], by simpa using h⟩
      | some k =>
        refine ⟨generation_attempt_ne_inProgress now req provider track_id st.track_cache, ?_⟩
        show admission_denied (dictSet (dictSet st.active_requests C true) C false) C = false
        simp [admission_denied, lookup_dictSet_self]
    · rw [if_pos (by simpa using hdur)]
      exact ⟨by simp [durationError, inProgressError], by simpa using h⟩

theorem single_flight_admission_witness :
    (generate_music 0 (some "k") "ip" ⟨"p", 20, "instrumental"⟩ .timeout "t" ⟨[("ip", true)], []⟩
      = ⟨⟨[("ip", true)], []⟩, .error inProgressError, false⟩)
    ∧ ((generate_music 0 (some "k") "ip" ⟨"p", 20, "instrumental"⟩ .timeout "t" ⟨[], []⟩).outcome
        ≠ .error inProgressError
      ∧ admission_denied
          (generate_music 0 (some "k") "ip" ⟨"p", 20, "instrumental"⟩ .timeout "t"
            ⟨[], []⟩).state.active_requests "ip" = false) :=
  ⟨(single_flight_admission 0 (some "k") "ip" ⟨"p", 20, "instrumental"⟩ .timeout "t"
      ⟨[("ip", true)], []⟩).1 (by decide),
   (single_flight_admission 0 (some "k") "ip" ⟨"p", 20, "instrumental"⟩ .timeout "t"
      ⟨[], []⟩).2 (by decide)⟩

/-- Claim C2: guaranteed release.  Every generate_music request that passes
admission, duration validation and configuration (and therefore sets the
in-flight flag) leaves the flag false when it finishes, for every provider
outcome: success, provider 429/401/402/other non-2xx, timeout, connection
error, or unexpected exception. -/
theorem flag_always_released (now : Nat) (k C : String)
    (req : MusicGenerationRequest) (provider : ProviderOutcome) (track_id : String)
    (st : GenState)
    (hadm : admission_denied st.active_requests C = false)
    (hdur : 10 ≤ req.duration ∧ req.duration ≤ 60) :
    List.lookup C
      (generate_music now (some k) C req provider track_id st).state.active_requests
      = some false := by
  unfold generate_music
  rw [if_neg (by simp [hadm]), if_neg (by simpa using hdur)]
  exact lookup_dictSet_self _ C false

theorem flag_always_released_witness :
    List.lookup "ip"
      (generate_music 0 (some "k") "ip" ⟨"p", 20, "instrumental"⟩ .unexpected "t"
        ⟨[], []⟩).state.active_requests
      = some false :=
  flag_always_released 0 "k" "ip" ⟨"p", 20, "instrumental"⟩ .unexpected "t" ⟨[], []⟩
    (by decide) (by decide)

theorem get_cached_track_snd_some {now : Nat} {cache : Cache} {track_id : String}
    {e : CacheEntry} (h : List.lookup track_id (clean_cache now cache) = some e) :
    (get_cached_track now cache track_id).2 = .ok ⟨e.audio_data, e.filename⟩ := by
  simp only [get_cached_track, h]

theorem get_cached_track_snd_none {now : Nat} {cache : Cache} {track_id : String}
    (h : List.lookup track_id (clean_cache now cache) = none) :
    (get_cached_track now cache track_id).2 = .error trackNotFoundError := by
  simp only [get_cached_track, h]

/-- Claim C3: cache round-trip with 15-minute lazy expiry.  A track cached at
time T with audio bytes B under its derived id is returned with exactly the
bytes B by a get at any time up to and including T+14m59s, and a get at
T+15m01s or later yields the 404 not-found error; expiry is evaluated against
the current time at the moment of the access. -/
theorem cache_roundtrip_expiry (T t : Nat) (cache : Cache) (track_id : String)
    (B : List Nat) (pr : String) (d : Int) (fn : String)
    (hnd : (cache.map Prod.fst).Nodup) :
    (t ≤ T + 899 →
      (get_cached_track t (cache_store T cache track_id ⟨B, pr, d, T, fn⟩) track_id).2
        = .ok ⟨B, fn⟩)
    ∧ (T + 901 ≤ t →
      (get_cached_track t (cache_store T cache track_id ⟨B, pr, d, T, fn⟩) track_id).2
        = .error trackNotFoundError) := by
  have key := lookup_filter_dictSet (clean_cache T cache) track_id
    (⟨B, pr, d, T, fn⟩ : CacheEntry) (fun kv => ! cacheExpired t kv.2) (keys_clean_nodup hnd T)
  constructor
  · intro ht
    have hlive : (fun (kv : String × CacheEntry) => ! cacheExpired t kv.2)
        (track_id, ⟨B, pr, d, T, fn⟩) = true := by
      simp only [cacheExpired, Bool.not_eq_true', decide_eq_false_iff_not, Nat.not_lt]
      omega
    rw [hlive, if_pos rfl] at key
    exact get_cached_track_snd_some key
  · intro ht
    have hct : cacheExpired t (⟨B, pr, d, T, fn⟩ : CacheEntry) = true := by
      simp only [cacheExpired, decide_eq_true_eq]
      omega
    have hexp : (fun (kv : String × CacheEntry) => ! cacheExpired t kv.2)
        (track_id, ⟨B, pr, d, T, fn⟩) = false := by
      simp only [hct, Bool.not_true]
    rw [hexp, if_neg (by simp)] at key
    exact get_cached_track_snd_none key

theorem cache_roundtrip_expiry_witness :
    ((get_cached_track 899 (cache_store 0 [] "t" ⟨[1, 2], "p", 20, 0, "f.mp3"⟩) "t").2
      = .ok ⟨[1, 2], "f.mp3"⟩)
    ∧ ((get_cached_track 901 (cache_store 0 [] "t" ⟨[1, 2], "p", 20, 0, "f.mp3"⟩) "t").2
      = .error trackNotFoundError) :=
  ⟨(cache_roundtrip_expiry 0 899 [] "t" [1, 2] "p" 20 "f.mp3" (by simp)).1 (by decide),
   (cache_roundtrip_expiry 0 901 [] "t" [1, 2] "p" 20 "f.mp3" (by simp)).2 (by decide)⟩

/-- Claim C5: quota error surfacing with computed suggestion.  When the
provider responds 401 with a quota-exceeded body whose message contains
"You have R credits remaining, while Q credits are required", generate_music
fails with 402 and a message carrying a suggested maximum duration equal to
the integer floor of R / 22.5 (equal to R * 2 / 45 in natural division; 4 for
R = 100). -/
theorem quota_402_suggestion (now : Nat) (k C : String) (req : MusicGenerationRequest)
    (track_id : String) (st : GenState) (msg : String) (content : List Nat)
    (remaining required : Nat)
    (hadm : admission_denied st.active_requests C = false)
    (hdur : 10 ≤ req.duration ∧ req.duration ≤ 60)
    (hmsg : searchQuota msg.toList = some (remaining, required)) :
    (generate_music now (some k) C req (.resp 401 true msg content) track_id st).outcome
      = .error ⟨402, quota_detail remaining required req.duration⟩
    ∧ max_duration remaining = remaining * 2 / 45 := by
  refine ⟨?_, max_duration_eq remaining⟩
  unfold generate_music
  rw [if_neg (by simp [hadm]), if_neg (by simpa using hdur)]
  show (generation_attempt now req (.resp 401 true msg content) track_id st.track_cache).2
    = .error ⟨402, quota_detail remaining required req.duration⟩
  have hmsg' : searchQuota msg.data = some (remaining, required) := hmsg
  simp [generation_attempt, hmsg']

theorem quota_402_suggestion_witness :
    (generate_music 0 (some "key") "ip" ⟨"ambient", 20, "instrumental"⟩
        (.resp 401 true "You have 100 credits remaining, while 500 credits are required" [])
        "t" ⟨[], []⟩).outcome
      = .error ⟨402, quota_detail 100 500 20⟩
    ∧ max_duration 100 = 4 := by
  have h := quota_402_suggestion 0 "key" "ip" ⟨"ambient", 20, "instrumental"⟩ "t" ⟨[], []⟩
    "You have 100 credits remaining, while 500 credits are required" [] 100 500
    rfl (by decide) (by rfl)
  exact ⟨h.1, h.2.trans (by decide)⟩

/-- Claim C6 counterexample: with the generation provider API key absent (and
admission and duration validation passing), generate_music fails with status
500, not 503 as the claim states. -/
theorem missing_api_key_not_503 :
    (generate_music 0 none "1.2.3.4" ⟨"p", 20, "instrumental"⟩ .unexpected "t"
        ⟨[], []⟩).outcome
      = .error notConfiguredError
    ∧ notConfiguredError.status_code = 500 ∧ notConfiguredError.status_code ≠ 503 :=
  ⟨by decide, rfl, by decide⟩

/-- Claim C6 (amended): if the generation provider API key environment
variable is absent, a request that passes admission and duration validation
fails with status 500 ("Music generation service is not configured properly"),
without any outbound generation call being made and without the in-flight flag
being set. -/
theorem missing_api_key_500 (now : Nat) (C : String) (req : MusicGenerationRequest)
    (provider : ProviderOutcome) (track_id : String) (st : GenState)
    (hadm : admission_denied st.active_requests C = false)
    (hdur : 10 ≤ req.duration ∧ req.duration ≤ 60) :
    generate_music now none C req provider track_id st
      = ⟨st, .error notConfiguredError, false⟩ := by
  unfold generate_music
  rw [if_neg (by simp [hadm]), if_neg (by simpa using hdur)]

theorem missing_api_key_500_witness :
    generate_music 7 none "ip" ⟨"p", 30, "instrumental"⟩ .timeout "t" ⟨[("x", true)], []⟩
      = ⟨⟨[("x", true)], []⟩, .error notConfiguredError, false⟩ :=
  missing_api_key_500 7 "ip" ⟨"p", 30, "instrumental"⟩ .timeout "t" ⟨[("x", true)], []⟩
    (by decide) (by decide)

/-- Claim C7: duration validation precedes the outbound call.  A request whose
duration is strictly below 10 or strictly above 60 seconds (from a client key
not currently in-flight) fails with the 400 duration error, with the state
unchanged (so the in-flight flag is not set) and no outbound call issued. -/
theorem duration_validated_before_call (now : Nat) (api_key : Option String) (C : String)
    (req : MusicGenerationRequest) (provider : ProviderOutcome) (track_id : String)
    (st : GenState)
    (hadm : admission_denied st.active_requests C = false)
    (hdur : req.duration < 10 ∨ 60 < req.duration) :
    generate_music now api_key C req provider track_id st
      = ⟨st, .error durationError, false⟩ := by
  unfold generate_music
  rw [if_neg (by simp [hadm]), if_pos (by simp; omega)]

theorem duration_validated_before_call_witness :
    generate_music 0 (some "k") "ip" ⟨"p", 5, "instrumental"⟩ .timeout "t" ⟨[], []⟩
      = ⟨⟨[], []⟩, .error durationError, false⟩ :=
  duration_validated_before_call 0 (some "k") "ip" ⟨"p", 5, "instrumental"⟩ .timeout "t"
    ⟨[], []⟩ (by decide) (by decide)

/-- Claim C4: the middleware invokes auth_service.get_current_user, a method
the auth service does not define (its resolver is named get_user), so the call
raises AttributeError for every presented bearer token; hence the optional
resolver returns absent identity and the required resolver fails with a 401
Authentication failed error, whatever the underlying token resolution would
have produced. -/
theorem auth_resolver_name_mismatch (resolve : String → Option UserResponse) (tok : String) :
    auth_service_call resolve "get_current_user" tok = .error .attributeError
    ∧ get_current_user_optional resolve (some tok) = none
    ∧ get_current_user_required resolve (some tok) = .error ⟨401, "Authentication failed"⟩ :=
  ⟨rfl, rfl, rfl⟩

theorem get_recent_tracks_fst (now : Nat) (cache : Cache) :
    (get_recent_tracks now cache).1 = clean_cache now cache := rfl

theorem get_recent_tracks_snd (now : Nat) (cache : Cache) :
    (get_recent_tracks now cache).2
      = (((clean_cache now cache).mergeSort
          (fun a b => decide (b.2.created_at ≤ a.2.created_at))).take 5).map recent_item := rfl

/-- Claim C8: recent-listing contract.  The listing contains at most
min(5, number of live entries) items, is ordered by creation time descending,
and contains no entry older than 15 minutes at call time. -/
theorem recent_tracks_contract (now : Nat) (cache : Cache) :
    ((get_recent_tracks now cache).2.length ≤ min 5 (clean_cache now cache).length)
    ∧ List.Pairwise (fun a b => b.created_at ≤ a.created_at) (get_recent_tracks now cache).2
    ∧ ∀ it ∈ (get_recent_tracks now cache).2, now - it.created_at ≤ 900 := by
  have htrans : ∀ (a b c : String × CacheEntry),
      (decide (b.2.created_at ≤ a.2.created_at)) = true →
      (decide (c.2.created_at ≤ b.2.created_at)) = true →
      (decide (c.2.created_at ≤ a.2.created_at)) = true := by
    intro a b c h1 h2
    simp only [decide_eq_true_eq] at h1 h2 ⊢
    omega
  have htotal : ∀ (a b : String × CacheEntry),
      ((decide (b.2.created_at ≤ a.2.created_at))
        || (decide (a.2.created_at ≤ b.2.created_at))) = true := by
    intro a b
    simp only [Bool.or_eq_true, decide_eq_true_eq]
    exact Nat.le_total _ _
  refine ⟨?_, ?_, ?_⟩
  · rw [get_recent_tracks_snd]
    simp only [List.length_map, List.length_take, List.length_mergeSort]
    exact le_rfl
  · rw [get_recent_tracks_snd]
    have hs := List.sorted_mergeSort htrans htotal (clean_cache now cache)
    have hp : List.Pairwise
        (fun (a b : String × CacheEntry) => b.2.created_at ≤ a.2.created_at)
        (((clean_cache now cache).mergeSort
          (fun a b => decide (b.2.created_at ≤ a.2.created_at))).take 5) := by
      refine List.Pairwise.sublist (List.take_sublist _ _) ?_
      exact hs.imp (fun h => by simpa using h)
    exact List.pairwise_map.mpr hp
  · intro it hit
    rw [get_recent_tracks_snd] at hit
    rcases List.mem_map.mp hit with ⟨kv, hkv, rfl⟩
    have h1 : kv ∈ clean_cache now cache :=
      List.mem_mergeSort.mp ((List.take_sublist _ _).subset hkv)
    exact live_of_mem_clean h1


theorem recent_tracks_contract_witness :
    0 - (recent_item ("a", ⟨[], "p", 20, 0, "f"⟩)).created_at ≤ 900 :=
  (recent_tracks_contract 0 [("a", ⟨[], "p", 20, 0, "f"⟩)]).2.2
    (recent_item ("a", ⟨[], "p", 20, 0, "f"⟩))
    (by rw [get_recent_tracks_snd]
        simp [clean_cache, cacheExpired, List.mergeSort_singleton])

/-- Claim C9: best-effort persistence.  When the metadata insert raises,
save_track returns a locally-synthesized record carrying the same title,
prompt, duration, file URL and file name, with the freshly generated id when
none was set, instead of propagating the failure to the caller. -/
theorem save_track_best_effort (td : GeneratedTrack) (fresh₁ fresh₂ iso : String) :
    ∃ newid, save_track true td .raises fresh₁ fresh₂ iso
        = .ok ⟨newid, td.title, td.prompt, td.duration, td.file_url, td.file_name, iso⟩
      ∧ (td.id = none → fresh₁ ≠ "" → newid = fresh₁) := by
  refine ⟨pyOr (if strFalsy td.id then some fresh₁ else td.id) fresh₂, ?_, ?_⟩
  · simp [save_track]
  · intro hid hne
    simp [strFalsy, hid, pyOr, hne]

theorem save_track_best_effort_witness :
    save_track true ⟨none, "u", "T", "P", 20, "url", "fn", "sp"⟩ .raises "uuid-1" "uuid-2" "iso"
      = .ok ⟨"uuid-1", "T", "P", 20, "url", "fn", "iso"⟩ := by
  obtain ⟨nid, h1, h2⟩ :=
    save_track_best_effort ⟨none, "u", "T", "P", 20, "url", "fn", "sp"⟩ "uuid-1" "uuid-2" "iso"
  rw [h2 rfl (by decide)] at h1
  exact h1

/-- Claim C10: cache freshness invariant.  Immediately after the insert
performed by generate_music, a lookup by get_cached_track, or a listing by
get_recent_tracks, every entry remaining in the cache is at most 15 minutes
old, measured at the time the operation ran its purge. -/
theorem cache_freshness (now : Nat) (cache : Cache) (track_id : String)
    (B : List Nat) (pr : String) (d : Int) (fn : String) :
    (∀ kv ∈ cache_store now cache track_id ⟨B, pr, d, now, fn⟩,
        now - kv.2.created_at ≤ 900)
    ∧ (∀ kv ∈ (get_cached_track now cache track_id).1, now - kv.2.created_at ≤ 900)
    ∧ (∀ kv ∈ (get_recent_tracks now cache).1, now - kv.2.created_at ≤ 900) := by
  refine ⟨?_, ?_, ?_⟩
  · intro kv hkv
    rcases mem_dictSet hkv with h | h
    · rw [h]
      simp
    · exact live_of_mem_clean h
  · intro kv hkv
    rw [get_cached_track_fst] at hkv
    exact live_of_mem_clean hkv
  · intro kv hkv
    rw [get_recent_tracks_fst] at hkv
    exact live_of_mem_clean hkv

theorem cache_freshness_witness :
    7 - (("t", (⟨[], "p", 20, 7, "f"⟩ : CacheEntry)) : String × CacheEntry).2.created_at ≤ 900 :=
  (cache_freshness 7 [] "t" [] "p" 20 "f").1 ("t", ⟨[], "p", 20, 7, "f"⟩) (by decide)
